import Mathlib

/-!
Verification of `custom_components/visonicalarm/alarm_control_panel.py`
(VisonicAlarm-for-Hassio).

The module is embedded shallowly:

* `AlarmState` models the Home Assistant alarm-state constants the module
  imports (`STATE_ALARM_DISARMED`, `STATE_ALARM_ARMED_HOME`,
  `STATE_ALARM_ARMED_AWAY`, `STATE_ALARM_ARMED_NIGHT`,
  `STATE_ALARM_TRIGGERED`, `STATE_ALARM_PENDING`, `STATE_ALARM_ARMING`)
  together with `STATE_UNKNOWN`.
* `mapping` is the literal dictionary built inside `VisonicAlarm.update`.
* `normalizeStatus` is the state computation of `VisonicAlarm.update`:
  `None` short-circuits to unknown, otherwise the raw string is stripped,
  upper-cased and looked up in `mapping` with default `STATE_UNKNOWN`.
* `Entity` models the mutable fields of the `VisonicAlarm` instance;
  `HubAlarm` models the snapshot of the external `hub.alarm` client that a
  read observes.  Because `hub` is external mutable state, each command takes
  the snapshot seen at command time and a second snapshot seen by the
  refresh that follows `hub.update()`.
* Side effects (client calls, `sleep(1)`, the refresh `self.update()`, and
  `persistent_notification.create`) are recorded in an `Effect` trace.
-/

/-- Alarm-state constants visible to the module.  `armedNight` is imported by
the source but never produced by it. -/
inductive AlarmState where
  | disarmed
  | armedHome
  | armedAway
  | armedNight
  | triggered
  | pending
  | arming
  | unknown
  deriving DecidableEq, Repr

/-- The literal `mapping` dictionary of `VisonicAlarm.update` (lines 202-226
of the source), as an association list in source order.  All keys are
distinct, so association-list lookup agrees with the Python dict. -/
def mapping : List (String × AlarmState) :=
  [ ("AWAY", AlarmState.armedAway),
    ("ARMED_AWAY", AlarmState.armedAway),
    ("ARM", AlarmState.armedAway),
    ("ARM_AWAY", AlarmState.armedAway),
    ("HOME", AlarmState.armedHome),
    ("STAY", AlarmState.armedHome),
    ("ARMED_HOME", AlarmState.armedHome),
    ("ARM_HOME", AlarmState.armedHome),
    ("DISARM", AlarmState.disarmed),
    ("DISARMED", AlarmState.disarmed),
    ("READY", AlarmState.disarmed),
    ("IDLE", AlarmState.disarmed),
    ("ARMING", AlarmState.arming),
    ("EXITDELAY", AlarmState.arming),
    ("ENTRYDELAY", AlarmState.pending),
    ("PENDING", AlarmState.pending),
    ("ALARM", AlarmState.triggered),
    ("TRIGGERED", AlarmState.triggered) ]

/-- Python `str.strip()` with no argument: remove leading and trailing
whitespace characters. -/
def pyStrip (s : String) : String :=
  ⟨((s.data.dropWhile Char.isWhitespace).reverse.dropWhile
      Char.isWhitespace).reverse⟩

/-- Python `str.upper()`: upper-case every character (the vendor strings in
play are ASCII, where `Char.toUpper` agrees with Python). -/
def pyUpper (s : String) : String :=
  ⟨s.data.map Char.toUpper⟩

/-- The state computation of `VisonicAlarm.update`: `raw is None` yields
`STATE_UNKNOWN` with no further processing; otherwise
`str(raw).strip().upper()` is looked up in `mapping` with default
`STATE_UNKNOWN` (`mapping.get(status, STATE_UNKNOWN)`). -/
def normalizeStatus (raw : Option String) : AlarmState :=
  match raw with
  | none => AlarmState.unknown
  | some s => (mapping.lookup (pyUpper (pyStrip s))).getD AlarmState.unknown

example : normalizeStatus (some " away ") = AlarmState.armedAway := by decide
example : normalizeStatus (some "EXITDELAY") = AlarmState.arming := by decide
example : normalizeStatus (some "foobar") = AlarmState.unknown := by decide
example : normalizeStatus none = AlarmState.unknown := rfl

/-- Snapshot of the external `hub.alarm` client, as far as this module reads
it inside `update` and the commands: the raw `state` string and the `ready`
flag. -/
structure HubAlarm where
  state : Option String
  ready : Bool
  deriving DecidableEq, Repr

/-- The mutable fields of a `VisonicAlarm` instance set in `__init__`:
`_attr_state`, `_code`, `_no_pin_required`, `_changed_by`,
`_changed_timestamp`, `_event_hour_offset`, `_id`. -/
structure Entity where
  attr_state : AlarmState
  code : Option String
  no_pin_required : Bool
  changed_by : Option String
  changed_timestamp : Option String
  event_hour_offset : Int
  id : String
  deriving DecidableEq, Repr

/-- Configuration read from `hub.config` in `__init__`: `CONF_USER_CODE`,
`CONF_NO_PIN_REQUIRED`, `CONF_EVENT_HOUR_OFFSET`. -/
structure Config where
  user_code : Option String
  no_pin_required : Bool
  event_hour_offset : Int
  deriving DecidableEq, Repr

/-- Observable side effects of the module, recorded as a trace: a
persistent-notification popup (`pn.create` with a title and message), the
three client commands, the `sleep(1)` settle delay, and a call of
`self.update()` (the refresh; it itself begins with `hub.update()`). -/
inductive Effect where
  | notify (title message : String)
  | clientDisarm
  | clientArmHome
  | clientArmAway
  | sleep (seconds : Nat)
  | refresh
  deriving DecidableEq, Repr

/-- True on the three external client commands. -/
def Effect.isClientCall : Effect → Bool
  | .clientDisarm => true
  | .clientArmHome => true
  | .clientArmAway => true
  | _ => false

/-- True on the user-visible persistent notifications. -/
def Effect.isNotice : Effect → Bool
  | .notify _ _ => true
  | _ => false

/-- True on a refresh (a call of `self.update()`). -/
def Effect.isRefresh : Effect → Bool
  | .refresh => true
  | _ => false

namespace VisonicAlarm

/-- The `__init__` constructor: `_attr_state = STATE_UNKNOWN`, code and flags
from `hub.config`, change record `None`, id from `hub.alarm.serial_number`. -/
def init (cfg : Config) (serial : String) : Entity :=
  { attr_state := AlarmState.unknown
    code := cfg.user_code
    no_pin_required := cfg.no_pin_required
    changed_by := none
    changed_timestamp := none
    event_hour_offset := cfg.event_hour_offset
    id := serial }

/-- The method `update_last_event(self, user, timestamp)`: store the pair in
`_changed_by` and `_changed_timestamp`. -/
def update_last_event (e : Entity) (user timestamp : String) : Entity :=
  { e with changed_by := some user, changed_timestamp := some timestamp }

/-- The method `update(self)`: call `hub.update()`, read `hub.alarm.state`
from the refreshed snapshot `hub`, and store its normalization in
`_attr_state`.  The trace records the one `update` call as `Effect.refresh`. -/
def update (e : Entity) (hub : HubAlarm) : Entity × List Effect :=
  ({ e with attr_state := normalizeStatus hub.state }, [Effect.refresh])

/-- The code gate shared by the three commands:
`not self._no_pin_required and code != self._code`.  When this is true the
command aborts with a notification. -/
def codeGateFails (e : Entity) (code : Option String) : Bool :=
  !e.no_pin_required && code != e.code

/-- The method `alarm_disarm(self, code=None)`.  `hub` is the ambient client
snapshot at call time (the method itself never reads it); `hub2` is the
snapshot observed by the refresh after `hub.update()` inside `self.update()`. -/
def alarm_disarm (e : Entity) (hub hub2 : HubAlarm) (code : Option String) :
    Entity × List Effect :=
  if codeGateFails e code then
    (e, [Effect.notify "Disarm Failed" "You entered the wrong disarm code."])
  else
    let r := update e hub2
    (r.1, [Effect.clientDisarm, Effect.sleep 1] ++ r.2)

/-- The method `alarm_arm_home(self, code=None)`: code gate, then the
`hub.alarm.ready` check on the call-time snapshot `hub`, then arm, settle,
refresh against `hub2`. -/
def alarm_arm_home (e : Entity) (hub hub2 : HubAlarm) (code : Option String) :
    Entity × List Effect :=
  if codeGateFails e code then
    (e, [Effect.notify "Arm Failed" "You entered the wrong arm code."])
  else if hub.ready then
    let r := update e hub2
    (r.1, [Effect.clientArmHome, Effect.sleep 1] ++ r.2)
  else
    (e, [Effect.notify "Arm Failed"
          "The alarm system is not ready. Doors/windows open?"])

/-- The method `alarm_arm_away(self, code=None)`: same shape as
`alarm_arm_home` with the away command and the "Unable to Arm" title. -/
def alarm_arm_away (e : Entity) (hub hub2 : HubAlarm) (code : Option String) :
    Entity × List Effect :=
  if codeGateFails e code then
    (e, [Effect.notify "Unable to Arm" "You entered the wrong arm code."])
  else if hub.ready then
    let r := update e hub2
    (r.1, [Effect.clientArmAway, Effect.sleep 1] ++ r.2)
  else
    (e, [Effect.notify "Unable to Arm"
          "The alarm system is not ready. Doors/windows open?"])

end VisonicAlarm

/-- One externally triggered operation on the entity, with the client
snapshots it observes. -/
inductive Op where
  | opUpdate (hub : HubAlarm)
  | opDisarm (hub hub2 : HubAlarm) (code : Option String)
  | opArmHome (hub hub2 : HubAlarm) (code : Option String)
  | opArmAway (hub hub2 : HubAlarm) (code : Option String)
  | opLastEvent (user timestamp : String)
  deriving DecidableEq, Repr

/-- State transition of the entity under one operation. -/
def step (e : Entity) : Op → Entity
  | .opUpdate hub => (VisonicAlarm.update e hub).1
  | .opDisarm hub hub2 code => (VisonicAlarm.alarm_disarm e hub hub2 code).1
  | .opArmHome hub hub2 code => (VisonicAlarm.alarm_arm_home e hub hub2 code).1
  | .opArmAway hub hub2 code => (VisonicAlarm.alarm_arm_away e hub hub2 code).1
  | .opLastEvent user timestamp => VisonicAlarm.update_last_event e user timestamp

/-- Run a sequence of operations from a starting entity. -/
def run (e : Entity) (ops : List Op) : Entity :=
  ops.foldl step e

/-- The seven canonical states the spec names; `AlarmState.armedNight` is the
one imported constant outside this set. -/
def canonicalStates : List AlarmState :=
  [ AlarmState.disarmed, AlarmState.armedHome, AlarmState.armedAway,
    AlarmState.arming, AlarmState.pending, AlarmState.triggered,
    AlarmState.unknown ]

/-- Sample configuration requiring the PIN "1234". -/
def sampleCfg : Config :=
  { user_code := some "1234", no_pin_required := false, event_hour_offset := 0 }

/-- Sample configuration with the "no PIN required" flag set. -/
def sampleCfgNoPin : Config :=
  { user_code := some "1234", no_pin_required := true, event_hour_offset := 0 }

/-- Sample freshly constructed entity (PIN required). -/
def sampleEntity : Entity := VisonicAlarm.init sampleCfg "A1"

/-- Sample freshly constructed entity (no PIN required). -/
def sampleEntityNoPin : Entity := VisonicAlarm.init sampleCfgNoPin "A1"

/-- Sample client snapshot: ready, in exit delay. -/
def hubReady : HubAlarm := { state := some "EXITDELAY", ready := true }

/-- Sample client snapshot: not ready. -/
def hubNotReady : HubAlarm := { state := some "READY", ready := false }

/-- Sample client snapshot observed by a refresh. -/
def hubAfter : HubAlarm := { state := some "ARMED_AWAY", ready := true }

/-- A successful association-list lookup returns one of the stored values. -/
theorem lookup_mem_values {α β : Type} [BEq α] (l : List (α × β)) (k : α)
    (v : β) (h : l.lookup k = some v) : v ∈ l.map Prod.snd := by
  induction l with
  | nil => simp [List.lookup] at h
  | cons hd tl ih =>
    rw [List.lookup] at h
    cases hbeq : k == hd.1 with
    | true =>
      rw [hbeq] at h
      simp at h
      simp [← h]
    | false =>
      rw [hbeq] at h
      simp at h
      exact List.mem_cons_of_mem _ (ih h)

/-- The normalizer only ever produces one of the seven canonical states. -/
theorem normalizeStatus_mem (raw : Option String) :
    normalizeStatus raw ∈ canonicalStates := by
  cases raw with
  | none => simp [normalizeStatus, canonicalStates]
  | some s =>
    rw [normalizeStatus]
    cases h : mapping.lookup (pyUpper (pyStrip s)) with
    | none => simp [canonicalStates]
    | some v =>
      have hv := lookup_mem_values mapping _ v h
      have hall : ∀ x ∈ mapping.map Prod.snd, x ∈ canonicalStates := by decide
      simpa using hall v hv

/-- One step either leaves the held state alone or stores a normalized value. -/
theorem step_attr_state (e : Entity) (op : Op) :
    (step e op).attr_state = e.attr_state ∨
    ∃ raw : Option String, (step e op).attr_state = normalizeStatus raw := by
  cases op with
  | opUpdate hub => exact Or.inr ⟨hub.state, rfl⟩
  | opDisarm hub hub2 code =>
    by_cases h : VisonicAlarm.codeGateFails e code
    · exact Or.inl (by simp [step, VisonicAlarm.alarm_disarm, h])
    · exact Or.inr ⟨hub2.state,
        by simp [step, VisonicAlarm.alarm_disarm, VisonicAlarm.update, h]⟩
  | opArmHome hub hub2 code =>
    by_cases h : VisonicAlarm.codeGateFails e code
    · exact Or.inl (by simp [step, VisonicAlarm.alarm_arm_home, h])
    · by_cases hr : hub.ready
      · exact Or.inr ⟨hub2.state,
          by simp [step, VisonicAlarm.alarm_arm_home, VisonicAlarm.update, h, hr]⟩
      · exact Or.inl (by simp [step, VisonicAlarm.alarm_arm_home, h, hr])
  | opArmAway hub hub2 code =>
    by_cases h : VisonicAlarm.codeGateFails e code
    · exact Or.inl (by simp [step, VisonicAlarm.alarm_arm_away, h])
    · by_cases hr : hub.ready
      · exact Or.inr ⟨hub2.state,
          by simp [step, VisonicAlarm.alarm_arm_away, VisonicAlarm.update, h, hr]⟩
      · exact Or.inl (by simp [step, VisonicAlarm.alarm_arm_away, h, hr])
  | opLastEvent user timestamp =>
    exact Or.inl (by simp [step, VisonicAlarm.update_last_event])

/-- Runs preserve the property of holding a normalized value. -/
theorem run_attr_state (e : Entity) (ops : List Op)
    (h : ∃ raw : Option String, e.attr_state = normalizeStatus raw) :
    ∃ raw : Option String, (run e ops).attr_state = normalizeStatus raw := by
  induction ops generalizing e with
  | nil => simpa [run] using h
  | cons op tl ih =>
    have hstep := step_attr_state e op
    have : ∃ raw : Option String, (step e op).attr_state = normalizeStatus raw := by
      cases hstep with
      | inl heq => exact heq ▸ h
      | inr hex => exact hex
    simpa [run, List.foldl_cons] using ih (step e op) this

/-- C1: for every raw status string whose trimmed, upper-cased form is a key
of the static synonym table, regardless of letter case and surrounding
whitespace, the state computation of `update` returns the canonical state the
table assigns to that key. -/
theorem normalizer_maps_table_keys (s key : String) (st : AlarmState)
    (hkey : mapping.lookup key = some st)
    (hs : pyUpper (pyStrip s) = key) :
    normalizeStatus (some s) = st := by
  simp [normalizeStatus, hs, hkey]

/-- Witness for C1 at `" away "` (table key `"AWAY"`). -/
theorem normalizer_maps_table_keys_witness :
    mapping.lookup "AWAY" = some AlarmState.armedAway ∧
    pyUpper (pyStrip " away ") = "AWAY" ∧
    normalizeStatus (some " away ") = AlarmState.armedAway :=
  ⟨by decide, by decide,
    normalizer_maps_table_keys " away " "AWAY" AlarmState.armedAway
      (by decide) (by decide)⟩

/-- C2: a `None` raw status normalizes to Unknown immediately, and any string
whose trimmed upper-cased form is not a table key normalizes to Unknown. -/
theorem normalizer_unknown_fallback (s : String)
    (hs : mapping.lookup (pyUpper (pyStrip s)) = none) :
    normalizeStatus none = AlarmState.unknown ∧
    normalizeStatus (some s) = AlarmState.unknown :=
  ⟨rfl, by simp [normalizeStatus, hs]⟩

/-- Witness for C2 at `"foobar"`. -/
theorem normalizer_unknown_fallback_witness :
    mapping.lookup (pyUpper (pyStrip "foobar")) = none ∧
    (normalizeStatus none = AlarmState.unknown ∧
     normalizeStatus (some "foobar") = AlarmState.unknown) :=
  ⟨by decide, normalizer_unknown_fallback "foobar" (by decide)⟩

/-- C3: with the code gate passing and the panel ready, each command invokes
its client call exactly once, then the one-second settle delay, then exactly
one refresh, in that order, and the refresh re-runs the normalizer on the
refreshed snapshot. -/
theorem commands_happy_path (e : Entity) (hub hub2 : HubAlarm)
    (code : Option String)
    (hgate : VisonicAlarm.codeGateFails e code = false)
    (hready : hub.ready = true) :
    VisonicAlarm.alarm_disarm e hub hub2 code =
      ({ e with attr_state := normalizeStatus hub2.state },
        [Effect.clientDisarm, Effect.sleep 1, Effect.refresh]) ∧
    VisonicAlarm.alarm_arm_home e hub hub2 code =
      ({ e with attr_state := normalizeStatus hub2.state },
        [Effect.clientArmHome, Effect.sleep 1, Effect.refresh]) ∧
    VisonicAlarm.alarm_arm_away e hub hub2 code =
      ({ e with attr_state := normalizeStatus hub2.state },
        [Effect.clientArmAway, Effect.sleep 1, Effect.refresh]) := by
  refine ⟨?_, ?_, ?_⟩ <;>
    simp [VisonicAlarm.alarm_disarm, VisonicAlarm.alarm_arm_home,
      VisonicAlarm.alarm_arm_away, VisonicAlarm.update, hgate, hready]

/-- Witness for C3 with the correct code on a ready panel. -/
theorem commands_happy_path_witness :
    VisonicAlarm.codeGateFails sampleEntity (some "1234") = false ∧
    hubReady.ready = true ∧
    (VisonicAlarm.alarm_disarm sampleEntity hubReady hubAfter (some "1234") =
      ({ sampleEntity with attr_state := normalizeStatus hubAfter.state },
        [Effect.clientDisarm, Effect.sleep 1, Effect.refresh]) ∧
     VisonicAlarm.alarm_arm_home sampleEntity hubReady hubAfter (some "1234") =
      ({ sampleEntity with attr_state := normalizeStatus hubAfter.state },
        [Effect.clientArmHome, Effect.sleep 1, Effect.refresh]) ∧
     VisonicAlarm.alarm_arm_away sampleEntity hubReady hubAfter (some "1234") =
      ({ sampleEntity with attr_state := normalizeStatus hubAfter.state },
        [Effect.clientArmAway, Effect.sleep 1, Effect.refresh])) :=
  ⟨by decide, by decide,
    commands_happy_path sampleEntity hubReady hubAfter (some "1234")
      (by decide) (by decide)⟩

/-- C4: with a PIN required and a mismatching code, each command makes no
client call and no refresh and produces exactly one failure notice. -/
theorem wrong_code_aborts (e : Entity) (hub hub2 : HubAlarm)
    (code : Option String)
    (hpin : e.no_pin_required = false) (hcode : code ≠ e.code) :
    ((VisonicAlarm.alarm_disarm e hub hub2 code).2.countP Effect.isClientCall = 0 ∧
     (VisonicAlarm.alarm_disarm e hub hub2 code).2.countP Effect.isRefresh = 0 ∧
     (VisonicAlarm.alarm_disarm e hub hub2 code).2.countP Effect.isNotice = 1) ∧
    ((VisonicAlarm.alarm_arm_home e hub hub2 code).2.countP Effect.isClientCall = 0 ∧
     (VisonicAlarm.alarm_arm_home e hub hub2 code).2.countP Effect.isRefresh = 0 ∧
     (VisonicAlarm.alarm_arm_home e hub hub2 code).2.countP Effect.isNotice = 1) ∧
    ((VisonicAlarm.alarm_arm_away e hub hub2 code).2.countP Effect.isClientCall = 0 ∧
     (VisonicAlarm.alarm_arm_away e hub hub2 code).2.countP Effect.isRefresh = 0 ∧
     (VisonicAlarm.alarm_arm_away e hub hub2 code).2.countP Effect.isNotice = 1) := by
  have hgate : VisonicAlarm.codeGateFails e code = true := by
    simp [VisonicAlarm.codeGateFails, hpin, bne_iff_ne, hcode]
  refine ⟨⟨?_, ?_, ?_⟩, ⟨?_, ?_, ?_⟩, ⟨?_, ?_, ?_⟩⟩ <;>
    simp [VisonicAlarm.alarm_disarm, VisonicAlarm.alarm_arm_home,
      VisonicAlarm.alarm_arm_away, hgate, Effect.isClientCall,
      Effect.isRefresh, Effect.isNotice]

/-- Witness for C4 with a wrong code on a fresh PIN-requiring entity. -/
theorem wrong_code_aborts_witness :
    sampleEntity.no_pin_required = false ∧
    some "9999" ≠ sampleEntity.code ∧
    (((VisonicAlarm.alarm_disarm sampleEntity hubReady hubAfter (some "9999")).2.countP Effect.isClientCall = 0 ∧
      (VisonicAlarm.alarm_disarm sampleEntity hubReady hubAfter (some "9999")).2.countP Effect.isRefresh = 0 ∧
      (VisonicAlarm.alarm_disarm sampleEntity hubReady hubAfter (some "9999")).2.countP Effect.isNotice = 1) ∧
     ((VisonicAlarm.alarm_arm_home sampleEntity hubReady hubAfter (some "9999")).2.countP Effect.isClientCall = 0 ∧
      (VisonicAlarm.alarm_arm_home sampleEntity hubReady hubAfter (some "9999")).2.countP Effect.isRefresh = 0 ∧
      (VisonicAlarm.alarm_arm_home sampleEntity hubReady hubAfter (some "9999")).2.countP Effect.isNotice = 1) ∧
     ((VisonicAlarm.alarm_arm_away sampleEntity hubReady hubAfter (some "9999")).2.countP Effect.isClientCall = 0 ∧
      (VisonicAlarm.alarm_arm_away sampleEntity hubReady hubAfter (some "9999")).2.countP Effect.isRefresh = 0 ∧
      (VisonicAlarm.alarm_arm_away sampleEntity hubReady hubAfter (some "9999")).2.countP Effect.isNotice = 1)) :=
  ⟨by decide, by decide,
    wrong_code_aborts sampleEntity hubReady hubAfter (some "9999")
      (by decide) (by decide)⟩

/-- C5: with the code gate passing but the panel not ready, the two arm
commands abort with exactly one "not ready" notice, no client call, no delay
and no refresh. -/
theorem arm_not_ready_aborts (e : Entity) (hub hub2 : HubAlarm)
    (code : Option String)
    (hgate : VisonicAlarm.codeGateFails e code = false)
    (hready : hub.ready = false) :
    VisonicAlarm.alarm_arm_home e hub hub2 code =
      (e, [Effect.notify "Arm Failed"
            "The alarm system is not ready. Doors/windows open?"]) ∧
    VisonicAlarm.alarm_arm_away e hub hub2 code =
      (e, [Effect.notify "Unable to Arm"
            "The alarm system is not ready. Doors/windows open?"]) ∧
    (VisonicAlarm.alarm_arm_home e hub hub2 code).2.countP Effect.isClientCall = 0 ∧
    (VisonicAlarm.alarm_arm_home e hub hub2 code).2.countP Effect.isRefresh = 0 ∧
    (VisonicAlarm.alarm_arm_home e hub hub2 code).2.countP Effect.isNotice = 1 ∧
    (VisonicAlarm.alarm_arm_away e hub hub2 code).2.countP Effect.isClientCall = 0 ∧
    (VisonicAlarm.alarm_arm_away e hub hub2 code).2.countP Effect.isRefresh = 0 ∧
    (VisonicAlarm.alarm_arm_away e hub hub2 code).2.countP Effect.isNotice = 1 := by
  refine ⟨?_, ?_, ?_, ?_, ?_, ?_, ?_, ?_⟩ <;>
    simp [VisonicAlarm.alarm_arm_home, VisonicAlarm.alarm_arm_away,
      hgate, hready, Effect.isClientCall, Effect.isRefresh, Effect.isNotice]

/-- Witness for C5 with the correct code on a not-ready panel. -/
theorem arm_not_ready_aborts_witness :
    VisonicAlarm.codeGateFails sampleEntity (some "1234") = false ∧
    hubNotReady.ready = false ∧
    (VisonicAlarm.alarm_arm_home sampleEntity hubNotReady hubAfter (some "1234") =
      (sampleEntity, [Effect.notify "Arm Failed"
            "The alarm system is not ready. Doors/windows open?"]) ∧
     VisonicAlarm.alarm_arm_away sampleEntity hubNotReady hubAfter (some "1234") =
      (sampleEntity, [Effect.notify "Unable to Arm"
            "The alarm system is not ready. Doors/windows open?"]) ∧
     (VisonicAlarm.alarm_arm_home sampleEntity hubNotReady hubAfter (some "1234")).2.countP Effect.isClientCall = 0 ∧
     (VisonicAlarm.alarm_arm_home sampleEntity hubNotReady hubAfter (some "1234")).2.countP Effect.isRefresh = 0 ∧
     (VisonicAlarm.alarm_arm_home sampleEntity hubNotReady hubAfter (some "1234")).2.countP Effect.isNotice = 1 ∧
     (VisonicAlarm.alarm_arm_away sampleEntity hubNotReady hubAfter (some "1234")).2.countP Effect.isClientCall = 0 ∧
     (VisonicAlarm.alarm_arm_away sampleEntity hubNotReady hubAfter (some "1234")).2.countP Effect.isRefresh = 0 ∧
     (VisonicAlarm.alarm_arm_away sampleEntity hubNotReady hubAfter (some "1234")).2.countP Effect.isNotice = 1) :=
  ⟨by decide, by decide,
    arm_not_ready_aborts sampleEntity hubNotReady hubAfter (some "1234")
      (by decide) (by decide)⟩

/-- C6: with the "no PIN required" flag set, the code gate never fails and
each command proceeds for every value of the code argument, the arm commands
subject only to the readiness check. -/
theorem no_pin_skips_code_check (e : Entity) (hub hub2 : HubAlarm)
    (code : Option String) (hpin : e.no_pin_required = true) :
    VisonicAlarm.codeGateFails e code = false ∧
    VisonicAlarm.alarm_disarm e hub hub2 code =
      ({ e with attr_state := normalizeStatus hub2.state },
        [Effect.clientDisarm, Effect.sleep 1, Effect.refresh]) ∧
    VisonicAlarm.alarm_arm_home e hub hub2 code =
      (if hub.ready then
        ({ e with attr_state := normalizeStatus hub2.state },
          [Effect.clientArmHome, Effect.sleep 1, Effect.refresh])
       else
        (e, [Effect.notify "Arm Failed"
              "The alarm system is not ready. Doors/windows open?"])) ∧
    VisonicAlarm.alarm_arm_away e hub hub2 code =
      (if hub.ready then
        ({ e with attr_state := normalizeStatus hub2.state },
          [Effect.clientArmAway, Effect.sleep 1, Effect.refresh])
       else
        (e, [Effect.notify "Unable to Arm"
              "The alarm system is not ready. Doors/windows open?"])) := by
  have hgate : VisonicAlarm.codeGateFails e code = false := by
    simp [VisonicAlarm.codeGateFails, hpin]
  refine ⟨hgate, ?_, ?_, ?_⟩
  · simp [VisonicAlarm.alarm_disarm, VisonicAlarm.update, hgate]
  · by_cases hr : hub.ready <;>
      simp [VisonicAlarm.alarm_arm_home, VisonicAlarm.update, hgate, hr]
  · by_cases hr : hub.ready <;>
      simp [VisonicAlarm.alarm_arm_away, VisonicAlarm.update, hgate, hr]

/-- Witness for C6 with an absent code on a no-PIN entity. -/
theorem no_pin_skips_code_check_witness :
    sampleEntityNoPin.no_pin_required = true ∧
    (VisonicAlarm.codeGateFails sampleEntityNoPin none = false ∧
     VisonicAlarm.alarm_disarm sampleEntityNoPin hubReady hubAfter none =
      ({ sampleEntityNoPin with attr_state := normalizeStatus hubAfter.state },
        [Effect.clientDisarm, Effect.sleep 1, Effect.refresh]) ∧
     VisonicAlarm.alarm_arm_home sampleEntityNoPin hubReady hubAfter none =
      (if hubReady.ready then
        ({ sampleEntityNoPin with attr_state := normalizeStatus hubAfter.state },
          [Effect.clientArmHome, Effect.sleep 1, Effect.refresh])
       else
        (sampleEntityNoPin, [Effect.notify "Arm Failed"
              "The alarm system is not ready. Doors/windows open?"])) ∧
     VisonicAlarm.alarm_arm_away sampleEntityNoPin hubReady hubAfter none =
      (if hubReady.ready then
        ({ sampleEntityNoPin with attr_state := normalizeStatus hubAfter.state },
          [Effect.clientArmAway, Effect.sleep 1, Effect.refresh])
       else
        (sampleEntityNoPin, [Effect.notify "Unable to Arm"
              "The alarm system is not ready. Doors/windows open?"]))) :=
  ⟨by decide,
    no_pin_skips_code_check sampleEntityNoPin hubReady hubAfter none (by decide)⟩

/-- C7: over every sequence of operations from a freshly constructed entity,
the held state stays inside the seven canonical states, it always equals the
normalization of some raw status, and immediately after any update it equals
exactly the normalization of that update's raw status. -/
theorem canonical_state_invariant (cfg : Config) (serial : String)
    (ops : List Op) :
    (run (VisonicAlarm.init cfg serial) ops).attr_state ∈ canonicalStates ∧
    (∃ raw : Option String,
      (run (VisonicAlarm.init cfg serial) ops).attr_state =
        normalizeStatus raw) ∧
    (∀ hub : HubAlarm,
      (run (VisonicAlarm.init cfg serial)
          (ops ++ [Op.opUpdate hub])).attr_state = normalizeStatus hub.state) := by
  have hrun := run_attr_state (VisonicAlarm.init cfg serial) ops ⟨none, rfl⟩
  refine ⟨?_, hrun, ?_⟩
  · obtain ⟨raw, hraw⟩ := hrun
    rw [hraw]
    exact normalizeStatus_mem raw
  · intro hub
    simp [run, List.foldl_append, step, VisonicAlarm.update]

/-- C8: `update_last_event` sets the changed-by user and changed timestamp
and leaves the held state and every other field unchanged. -/
theorem update_last_event_frame (e : Entity) (user timestamp : String) :
    (VisonicAlarm.update_last_event e user timestamp).changed_by = some user ∧
    (VisonicAlarm.update_last_event e user timestamp).changed_timestamp =
      some timestamp ∧
    (VisonicAlarm.update_last_event e user timestamp).attr_state =
      e.attr_state ∧
    (VisonicAlarm.update_last_event e user timestamp).code = e.code ∧
    (VisonicAlarm.update_last_event e user timestamp).no_pin_required =
      e.no_pin_required ∧
    (VisonicAlarm.update_last_event e user timestamp).event_hour_offset =
      e.event_hour_offset ∧
    (VisonicAlarm.update_last_event e user timestamp).id = e.id := by
  simp [VisonicAlarm.update_last_event]

/-- C9: disarm is not gated by readiness: with the code gate passing it
issues the client disarm, settle delay and refresh even on a not-ready
panel. -/
theorem disarm_ignores_readiness (e : Entity) (hub hub2 : HubAlarm)
    (code : Option String)
    (hgate : VisonicAlarm.codeGateFails e code = false)
    (hready : hub.ready = false) :
    VisonicAlarm.alarm_disarm e hub hub2 code =
      ({ e with attr_state := normalizeStatus hub2.state },
        [Effect.clientDisarm, Effect.sleep 1, Effect.refresh]) := by
  simp [VisonicAlarm.alarm_disarm, VisonicAlarm.update, hgate]

/-- Witness for C9 with the correct code on a not-ready panel. -/
theorem disarm_ignores_readiness_witness :
    VisonicAlarm.codeGateFails sampleEntity (some "1234") = false ∧
    hubNotReady.ready = false ∧
    VisonicAlarm.alarm_disarm sampleEntity hubNotReady hubAfter (some "1234") =
      ({ sampleEntity with attr_state := normalizeStatus hubAfter.state },
        [Effect.clientDisarm, Effect.sleep 1, Effect.refresh]) :=
  ⟨by decide, by decide,
    disarm_ignores_readiness sampleEntity hubNotReady hubAfter (some "1234")
      (by decide) (by decide)⟩

/-- C10: on either recognized failure (failing code gate, or passing gate
with a not-ready panel) the entity is returned unchanged in every field and
no refresh occurs; in the wrong-code case this also covers disarm. -/
theorem failure_keeps_entity_unchanged (e : Entity) (hub hub2 : HubAlarm)
    (code : Option String)
    (hfail : VisonicAlarm.codeGateFails e code = true ∨
      (VisonicAlarm.codeGateFails e code = false ∧ hub.ready = false)) :
    (VisonicAlarm.alarm_arm_home e hub hub2 code).1 = e ∧
    (VisonicAlarm.alarm_arm_home e hub hub2 code).2.countP Effect.isRefresh = 0 ∧
    (VisonicAlarm.alarm_arm_away e hub hub2 code).1 = e ∧
    (VisonicAlarm.alarm_arm_away e hub hub2 code).2.countP Effect.isRefresh = 0 ∧
    (VisonicAlarm.codeGateFails e code = true →
      (VisonicAlarm.alarm_disarm e hub hub2 code).1 = e ∧
      (VisonicAlarm.alarm_disarm e hub hub2 code).2.countP Effect.isRefresh = 0) := by
  cases hfail with
  | inl h =>
    refine ⟨?_, ?_, ?_, ?_, fun _ => ⟨?_, ?_⟩⟩ <;>
      simp [VisonicAlarm.alarm_arm_home, VisonicAlarm.alarm_arm_away,
        VisonicAlarm.alarm_disarm, h, Effect.isRefresh, Effect.isNotice]
  | inr h =>
    obtain ⟨hgate, hready⟩ := h
    refine ⟨?_, ?_, ?_, ?_, fun hc => absurd hc (by simp [hgate])⟩ <;>
      simp [VisonicAlarm.alarm_arm_home, VisonicAlarm.alarm_arm_away,
        hgate, hready, Effect.isRefresh, Effect.isNotice]

/-- Witness for C10 with a wrong code on a fresh PIN-requiring entity. -/
theorem failure_keeps_entity_unchanged_witness :
    (VisonicAlarm.codeGateFails sampleEntity (some "0000") = true ∨
      (VisonicAlarm.codeGateFails sampleEntity (some "0000") = false ∧
        hubReady.ready = false)) ∧
    ((VisonicAlarm.alarm_arm_home sampleEntity hubReady hubAfter (some "0000")).1 = sampleEntity ∧
     (VisonicAlarm.alarm_arm_home sampleEntity hubReady hubAfter (some "0000")).2.countP Effect.isRefresh = 0 ∧
     (VisonicAlarm.alarm_arm_away sampleEntity hubReady hubAfter (some "0000")).1 = sampleEntity ∧
     (VisonicAlarm.alarm_arm_away sampleEntity hubReady hubAfter (some "0000")).2.countP Effect.isRefresh = 0 ∧
     (VisonicAlarm.codeGateFails sampleEntity (some "0000") = true →
       (VisonicAlarm.alarm_disarm sampleEntity hubReady hubAfter (some "0000")).1 = sampleEntity ∧
       (VisonicAlarm.alarm_disarm sampleEntity hubReady hubAfter (some "0000")).2.countP Effect.isRefresh = 0)) :=
  ⟨Or.inl (by decide),
    failure_keeps_entity_unchanged sampleEntity hubReady hubAfter (some "0000")
      (Or.inl (by decide))⟩
